import Mathlib

/-!
Verification development for `scripts/s3_upload.py`.

The script is embedded shallowly: the pure string/config manipulation is
translated to Lean functions, and the interaction with the outside world
(config file on disk, process environment, the S3 SDK client) is made
explicit through an oracle structure `S3Sys` that carries the file content,
the process environment, and the outcome of each external SDK call.  Each
operation returns the value the Python function produces (`Except S3Exn Bool`:
`Except.ok b` for a normal boolean return, `Except.error e` for an exception
escaping the function) together with the ordered trace of observable actions
(prints, client construction, SDK calls).
-/

set_option maxRecDepth 4000

/-- ASCII whitespace as stripped by the default `str.strip()`. -/
def isSpace (c : Char) : Bool :=
  c = ' ' || c = '\t' || c = '\n' || c = '\r' || c = Char.ofNat 11 || c = Char.ofNat 12

/-- Remove leading and trailing whitespace from a character list. -/
def stripChars (l : List Char) : List Char :=
  (l.dropWhile isSpace).rdropWhile isSpace

/-- Embedding of `str.strip()` (line 21, 24 of the script). -/
def pyStrip (s : String) : String :=
  String.mk (stripChars s.data)

/-- Insert into a Python-dict-like association list: overwrite the existing
binding of the key, otherwise append at the end. -/
def dictInsert (d : List (String × String)) (k v : String) : List (String × String) :=
  match d with
  | [] => [(k, v)]
  | (k0, v0) :: rest => if k0 = k then (k, v) :: rest else (k0, v0) :: dictInsert rest k v

/-- Lookup in an association list, i.e. `dict.get(k)` returning `None` when absent.
Also models `os.getenv(k)` over an explicit environment list. -/
def dictGet (d : List (String × String)) (k : String) : Option String :=
  (d.find? (fun p => p.1 = k)).map (fun p => p.2)

/-- Split a character list at the first occurrence of the separator.
Returns the part before it and, when found, the part after it. -/
def partAt (sep : Char) : List Char → List Char × Option (List Char)
  | [] => ([], none)
  | c :: cs =>
    if c = sep then ([], some cs)
    else
      let r := partAt sep cs
      (c :: r.1, r.2)

/-- Embedding of `line.partition('=')` (line 23), keeping only the head and
tail components the script uses: when the separator is absent Python returns
`(line, "", "")`, so the head is the whole string and the tail is empty. -/
def pyPartition (s : String) : String × String :=
  let r := partAt '=' s.data
  (String.mk r.1, String.mk (r.2.getD []))

/-- Processing of one line of the `.env` file (lines 20-24 of the script):
strip the line, skip it when empty or starting with `#`, otherwise partition
at the first `=` and store the stripped key and value. -/
def processLine (d : List (String × String)) (raw : String) : List (String × String) :=
  let line := pyStrip raw
  if line.data ≠ [] ∧ line.data.head? ≠ some '#' then
    dictInsert d (pyStrip (pyPartition line).1) (pyStrip (pyPartition line).2)
  else d

/-- Embedding of `load_env_file` (lines 15-25).  The file system is made
explicit: `none` means the file does not exist at the path (the
`os.path.exists` guard fails), `some lines` gives its lines. -/
def load_env_file (file : Option (List String)) : List (String × String) :=
  match file with
  | none => []
  | some lines => lines.foldl processLine []

/-- Python `x or y` on optional strings: `x` when it is a non-empty string,
otherwise `y` (both `None` and `""` are falsy). -/
def pyOr (x y : Option String) : Option String :=
  match x with
  | none => y
  | some s => if s.data = [] then y else some s

/-- Python truthiness of an optional string: `None` and `""` are falsy. -/
def truthy (x : Option String) : Bool :=
  match x with
  | none => false
  | some s => !s.data.isEmpty

/-- The `e.response` data of a `ClientError`, as far as the script inspects
it: `errorCodeField = none` models a response without an `Error` entry,
`some none` an `Error` entry without a `Code`, `some (some c)` a code `c`. -/
structure S3ErrResp where
  errorCodeField : Option (Option String)
deriving DecidableEq

/-- Embedding of line 108: the error code is read from the `Error` entry of
the response, then its `Code` entry, defaulting to `Unknown` at each missing
level. -/
def errorCode (r : S3ErrResp) : String :=
  match r.errorCodeField with
  | none => "Unknown"
  | some none => "Unknown"
  | some (some c) => c

/-- Exceptions the embedded script distinguishes: the three exception types
named in its `except` clauses, plus `other` for any other `Exception`
(each payload string is the `str(e)` rendering used in messages). -/
inductive S3Exn where
  | fileNotFound
  | noCredentials
  | clientError (resp : S3ErrResp) (s : String)
  | other (s : String)
deriving DecidableEq

deriving instance DecidableEq for Except

/-- The `str(e)` rendering of an exception, as interpolated into messages. -/
def exnStr : S3Exn → String
  | S3Exn.fileNotFound => "FileNotFoundError"
  | S3Exn.noCredentials => "Unable to locate credentials"
  | S3Exn.clientError _ s => s
  | S3Exn.other s => s

/-- Whether an SDK call outcome is an exception not matching any of the three
`except` clauses of the upload `try` block. -/
def isOtherErr : Except S3Exn Unit → Bool
  | Except.error (S3Exn.other _) => true
  | _ => false

/-- Observable actions of the script: console prints, client construction,
and the two SDK calls. -/
inductive S3Act where
  | print (msg : String)
  | createClient (accessKey secretKey : String) (endpointUrl : Option String) (region : String)
  | uploadFile (filePath bucket key storageClass : String)
  | headBucket (bucket : String)
deriving DecidableEq

/-- The world the script runs against: the `.env` file content (if the file
exists), the process environment, and the outcome of each external SDK
operation (`boto3.client`, `upload_file`, `head_bucket`): `Except.ok ()` for
a normal return, `Except.error e` when the call raises `e`. -/
structure S3Sys where
  envFile : Option (List String)
  osEnv : List (String × String)
  clientCtor : Except S3Exn Unit
  uploadOutcome : Except S3Exn Unit
  headOutcome : Except S3Exn Unit

/-- The five resolved configuration values (lines 33-37 and 85-89, identical
in both operations). -/
structure S3Config where
  access_key : Option String
  secret_key : Option String
  bucket_name : Option String
  endpoint_url : Option String
  region : String
deriving DecidableEq

/-- Embedding of the config resolution lines 33-37 (= lines 85-89):
file value or else process environment for the four credential/endpoint
keys, and file value with hardcoded default `ru-central1` for the region. -/
def resolveConfig (sys : S3Sys) : S3Config :=
  let env := load_env_file sys.envFile
  { access_key := pyOr (dictGet env "S3_ACCESS_KEY_ID") (dictGet sys.osEnv "S3_ACCESS_KEY_ID")
    secret_key := pyOr (dictGet env "S3_SECRET_ACCESS_KEY") (dictGet sys.osEnv "S3_SECRET_ACCESS_KEY")
    bucket_name := pyOr (dictGet env "S3_BUCKET_NAME") (dictGet sys.osEnv "S3_BUCKET_NAME")
    endpoint_url := pyOr (dictGet env "S3_ENDPOINT_URL") (dictGet sys.osEnv "S3_ENDPOINT_URL")
    region := (dictGet env "S3_REGION").getD "ru-central1" }

/-- Embedding of `all([access_key, secret_key, bucket_name])` (lines 39, 91). -/
def credsOk (cfg : S3Config) : Bool :=
  truthy cfg.access_key && truthy cfg.secret_key && truthy cfg.bucket_name

/-- Split a character list on a separator character (every occurrence). -/
def splitOnChar (sep : Char) : List Char → List (List Char)
  | [] => [[]]
  | c :: cs =>
    let r := splitOnChar sep cs
    if c = sep then [] :: r
    else
      match r with
      | [] => [[c]]
      | h :: t => (c :: h) :: t

/-- Embedding of `Path(file_path).name` (line 57): the last path component,
after dropping empty components and `.` components as `pathlib` parsing does. -/
def pathName (p : String) : String :=
  let parts := (splitOnChar '/' p.data).filter (fun c => !c.isEmpty && !(c == ['.']))
  String.mk (parts.getLastD [])

/-- Embedding of `upload_to_s3` (lines 27-79).  Returns the function result
(`Except.ok b` for a normal `return b`, `Except.error e` when exception `e`
escapes) and the trace of actions. -/
def upload_to_s3 (sys : S3Sys) (file_path pfx : String) :
    Except S3Exn Bool × List S3Act :=
  let cfg := resolveConfig sys
  if ¬ credsOk cfg then
    (Except.ok false, [S3Act.print "ERROR: S3 credentials not configured in .env"])
  else
    let ak := cfg.access_key.getD ""
    let sk := cfg.secret_key.getD ""
    let bn := cfg.bucket_name.getD ""
    let mkC := S3Act.createClient ak sk cfg.endpoint_url cfg.region
    match sys.clientCtor with
    | Except.error e =>
        (Except.ok false, [mkC, S3Act.print ("ERROR: Failed to create S3 client: " ++ exnStr e)])
    | Except.ok _ =>
        let file_name := pathName file_path
        let s3_key := pfx ++ file_name
        let pre := [mkC,
          S3Act.print ("Uploading " ++ file_name ++ " to s3://" ++ bn ++ "/" ++ s3_key ++ "...")]
        let call := S3Act.uploadFile file_path bn s3_key "STANDARD"
        match sys.uploadOutcome with
        | Except.ok _ =>
            (Except.ok true,
             pre ++ [call, S3Act.print ("Upload successful: s3://" ++ bn ++ "/" ++ s3_key)])
        | Except.error S3Exn.fileNotFound =>
            (Except.ok false, pre ++ [call, S3Act.print ("ERROR: File not found: " ++ file_path)])
        | Except.error S3Exn.noCredentials =>
            (Except.ok false, pre ++ [call, S3Act.print "ERROR: Invalid S3 credentials"])
        | Except.error (S3Exn.clientError _ s) =>
            (Except.ok false, pre ++ [call, S3Act.print ("ERROR: S3 upload failed: " ++ s)])
        | Except.error (S3Exn.other m) =>
            (Except.error (S3Exn.other m), pre ++ [call])

/-- Embedding of `test_s3_connection` (lines 81-118).  The `try` block covers
both client construction and `head_bucket`; `except ClientError` dispatches on
the error code and `except Exception` catches everything else. -/
def test_s3_connection (sys : S3Sys) : Except S3Exn Bool × List S3Act :=
  let cfg := resolveConfig sys
  if ¬ credsOk cfg then
    (Except.ok false, [S3Act.print "ERROR: S3 credentials not configured"])
  else
    let ak := cfg.access_key.getD ""
    let sk := cfg.secret_key.getD ""
    let bn := cfg.bucket_name.getD ""
    let mkC := S3Act.createClient ak sk cfg.endpoint_url cfg.region
    match sys.clientCtor with
    | Except.error (S3Exn.clientError resp s) =>
        let code := errorCode resp
        if code = "404" then
          (Except.ok false, [mkC, S3Act.print ("ERROR: Bucket " ++ bn ++ " not found")])
        else if code = "403" then
          (Except.ok false, [mkC, S3Act.print ("ERROR: Access denied to bucket " ++ bn)])
        else
          (Except.ok false, [mkC, S3Act.print ("ERROR: S3 connection failed: " ++ s)])
    | Except.error e =>
        (Except.ok false, [mkC, S3Act.print ("ERROR: Failed to connect to S3: " ++ exnStr e)])
    | Except.ok _ =>
        let hb := S3Act.headBucket bn
        match sys.headOutcome with
        | Except.ok _ =>
            (Except.ok true,
             [mkC, hb, S3Act.print ("S3 connection successful: bucket " ++ bn ++ " is accessible")])
        | Except.error (S3Exn.clientError resp s) =>
            let code := errorCode resp
            if code = "404" then
              (Except.ok false, [mkC, hb, S3Act.print ("ERROR: Bucket " ++ bn ++ " not found")])
            else if code = "403" then
              (Except.ok false, [mkC, hb, S3Act.print ("ERROR: Access denied to bucket " ++ bn)])
            else
              (Except.ok false, [mkC, hb, S3Act.print ("ERROR: S3 connection failed: " ++ s)])
        | Except.error e =>
            (Except.ok false, [mkC, hb, S3Act.print ("ERROR: Failed to connect to S3: " ++ exnStr e)])

/-- Embedding of the `__main__` block (lines 120-134).  `args` is
`sys.argv[1:]` (the arguments after the program name); the result is the
process exit code (an uncaught exception also exits non-zero, code 1) and
the trace. -/
def mainRun (sys : S3Sys) (args : List String) : Nat × List S3Act :=
  match args with
  | [] =>
      (1, [S3Act.print "Usage: s3_upload.py <file_path> [s3_prefix]",
           S3Act.print "       s3_upload.py --test"])
  | arg1 :: rest =>
      if arg1 = "--test" then
        let r := test_s3_connection sys
        ((match r.1 with | Except.ok true => 0 | _ => 1), r.2)
      else
        let r := upload_to_s3 sys arg1 (rest.headD "")
        ((match r.1 with | Except.ok true => 0 | _ => 1), r.2)

/-- Whether an exception is a `ClientError` (matched by `except ClientError`). -/
def isClientErr : S3Exn → Bool
  | S3Exn.clientError _ _ => true
  | _ => false

/-- The client-construction action an operation performs once the credential
guard has passed, with the resolved configuration values. -/
def clientAct (sys : S3Sys) : S3Act :=
  S3Act.createClient ((resolveConfig sys).access_key.getD "")
    ((resolveConfig sys).secret_key.getD "")
    (resolveConfig sys).endpoint_url (resolveConfig sys).region

/-- The resolved bucket name an operation uses after the guard has passed. -/
def bucketOf (sys : S3Sys) : String :=
  (resolveConfig sys).bucket_name.getD ""

/-- A system whose file carries the three required keys and whose process
environment carries only `S3_REGION`; every SDK call succeeds. -/
def sysRegionEnv : S3Sys :=
  { envFile := some ["S3_ACCESS_KEY_ID=a", "S3_SECRET_ACCESS_KEY=b", "S3_BUCKET_NAME=c"]
    osEnv := [("S3_REGION", "us-east-1")]
    clientCtor := Except.ok ()
    uploadOutcome := Except.ok ()
    headOutcome := Except.ok () }

/-- A system with no config file and all five keys in the process environment. -/
def sysEnvOnly : S3Sys :=
  { envFile := none
    osEnv := [("S3_ACCESS_KEY_ID", "A"), ("S3_SECRET_ACCESS_KEY", "B"),
              ("S3_BUCKET_NAME", "C"), ("S3_ENDPOINT_URL", "E"), ("S3_REGION", "R")]
    clientCtor := Except.ok ()
    uploadOutcome := Except.ok ()
    headOutcome := Except.ok () }

/-- A system with the three required keys in the file and every SDK call
succeeding. -/
def sysFileCreds : S3Sys :=
  { envFile := some ["S3_ACCESS_KEY_ID=a", "S3_SECRET_ACCESS_KEY=b", "S3_BUCKET_NAME=c"]
    osEnv := []
    clientCtor := Except.ok ()
    uploadOutcome := Except.ok ()
    headOutcome := Except.ok () }

/-- Like `sysFileCreds`, except the upload call raises an exception that is
none of `FileNotFoundError`, `NoCredentialsError`, `ClientError`. -/
def sysOtherExn : S3Sys :=
  { envFile := some ["S3_ACCESS_KEY_ID=a", "S3_SECRET_ACCESS_KEY=b", "S3_BUCKET_NAME=c"]
    osEnv := []
    clientCtor := Except.ok ()
    uploadOutcome := Except.error (S3Exn.other "boom")
    headOutcome := Except.ok () }

/-- A system with no config file and an empty process environment. -/
def sysNoCreds : S3Sys :=
  { envFile := none
    osEnv := []
    clientCtor := Except.ok ()
    uploadOutcome := Except.ok ()
    headOutcome := Except.ok () }

/-- Like `sysFileCreds`, except `head_bucket` raises a `ClientError` whose
response carries error code 404. -/
def sysHead404 : S3Sys :=
  { envFile := some ["S3_ACCESS_KEY_ID=a", "S3_SECRET_ACCESS_KEY=b", "S3_BUCKET_NAME=c"]
    osEnv := []
    clientCtor := Except.ok ()
    uploadOutcome := Except.ok ()
    headOutcome := Except.error (S3Exn.clientError ⟨some (some "404")⟩ "An error occurred (404)") }

theorem str_eq_empty_iff (s : String) : s = "" ↔ s.data = [] := by
  cases s with
  | mk d =>
    constructor
    · intro h
      rw [h]
    · intro h
      rw [show d = [] from h]

theorem upload_no_creds (sys : S3Sys) (fp p : String)
    (h : credsOk (resolveConfig sys) = false) :
    upload_to_s3 sys fp p =
      (Except.ok false, [S3Act.print "ERROR: S3 credentials not configured in .env"]) := by
  unfold upload_to_s3
  simp [h]

theorem upload_ctor_err (sys : S3Sys) (fp p : String) (e : S3Exn)
    (hc : credsOk (resolveConfig sys) = true) (he : sys.clientCtor = Except.error e) :
    upload_to_s3 sys fp p =
      (Except.ok false,
       [clientAct sys, S3Act.print ("ERROR: Failed to create S3 client: " ++ exnStr e)]) := by
  unfold upload_to_s3
  simp [hc, he, clientAct]

theorem upload_ok (sys : S3Sys) (fp p : String)
    (hc : credsOk (resolveConfig sys) = true)
    (hct : sys.clientCtor = Except.ok ())
    (hup : sys.uploadOutcome = Except.ok ()) :
    upload_to_s3 sys fp p =
      (Except.ok true,
       [clientAct sys,
        S3Act.print ("Uploading " ++ pathName fp ++ " to s3://" ++ bucketOf sys ++ "/"
          ++ (p ++ pathName fp) ++ "..."),
        S3Act.uploadFile fp (bucketOf sys) (p ++ pathName fp) "STANDARD",
        S3Act.print ("Upload successful: s3://" ++ bucketOf sys ++ "/" ++ (p ++ pathName fp))]) := by
  unfold upload_to_s3
  simp [hc, hct, hup, clientAct, bucketOf]

theorem upload_fnf (sys : S3Sys) (fp p : String)
    (hc : credsOk (resolveConfig sys) = true)
    (hct : sys.clientCtor = Except.ok ())
    (hup : sys.uploadOutcome = Except.error S3Exn.fileNotFound) :
    upload_to_s3 sys fp p =
      (Except.ok false,
       [clientAct sys,
        S3Act.print ("Uploading " ++ pathName fp ++ " to s3://" ++ bucketOf sys ++ "/"
          ++ (p ++ pathName fp) ++ "..."),
        S3Act.uploadFile fp (bucketOf sys) (p ++ pathName fp) "STANDARD",
        S3Act.print ("ERROR: File not found: " ++ fp)]) := by
  unfold upload_to_s3
  simp [hc, hct, hup, clientAct, bucketOf]

theorem upload_nocred_exn (sys : S3Sys) (fp p : String)
    (hc : credsOk (resolveConfig sys) = true)
    (hct : sys.clientCtor = Except.ok ())
    (hup : sys.uploadOutcome = Except.error S3Exn.noCredentials) :
    upload_to_s3 sys fp p =
      (Except.ok false,
       [clientAct sys,
        S3Act.print ("Uploading " ++ pathName fp ++ " to s3://" ++ bucketOf sys ++ "/"
          ++ (p ++ pathName fp) ++ "..."),
        S3Act.uploadFile fp (bucketOf sys) (p ++ pathName fp) "STANDARD",
        S3Act.print "ERROR: Invalid S3 credentials"]) := by
  unfold upload_to_s3
  simp [hc, hct, hup, clientAct, bucketOf]

theorem upload_client_err (sys : S3Sys) (fp p : String) (resp : S3ErrResp) (s : String)
    (hc : credsOk (resolveConfig sys) = true)
    (hct : sys.clientCtor = Except.ok ())
    (hup : sys.uploadOutcome = Except.error (S3Exn.clientError resp s)) :
    upload_to_s3 sys fp p =
      (Except.ok false,
       [clientAct sys,
        S3Act.print ("Uploading " ++ pathName fp ++ " to s3://" ++ bucketOf sys ++ "/"
          ++ (p ++ pathName fp) ++ "..."),
        S3Act.uploadFile fp (bucketOf sys) (p ++ pathName fp) "STANDARD",
        S3Act.print ("ERROR: S3 upload failed: " ++ s)]) := by
  unfold upload_to_s3
  simp [hc, hct, hup, clientAct, bucketOf]

theorem upload_other_exn (sys : S3Sys) (fp p : String) (m : String)
    (hc : credsOk (resolveConfig sys) = true)
    (hct : sys.clientCtor = Except.ok ())
    (hup : sys.uploadOutcome = Except.error (S3Exn.other m)) :
    upload_to_s3 sys fp p =
      (Except.error (S3Exn.other m),
       [clientAct sys,
        S3Act.print ("Uploading " ++ pathName fp ++ " to s3://" ++ bucketOf sys ++ "/"
          ++ (p ++ pathName fp) ++ "..."),
        S3Act.uploadFile fp (bucketOf sys) (p ++ pathName fp) "STANDARD"]) := by
  unfold upload_to_s3
  simp [hc, hct, hup, clientAct, bucketOf]

theorem test_no_creds (sys : S3Sys)
    (h : credsOk (resolveConfig sys) = false) :
    test_s3_connection sys =
      (Except.ok false, [S3Act.print "ERROR: S3 credentials not configured"]) := by
  unfold test_s3_connection
  simp [h]

theorem test_ctor_client_err (sys : S3Sys) (resp : S3ErrResp) (s : String)
    (hc : credsOk (resolveConfig sys) = true)
    (he : sys.clientCtor = Except.error (S3Exn.clientError resp s)) :
    test_s3_connection sys =
      (Except.ok false,
       [clientAct sys,
        S3Act.print
          (if errorCode resp = "404" then "ERROR: Bucket " ++ bucketOf sys ++ " not found"
           else if errorCode resp = "403" then "ERROR: Access denied to bucket " ++ bucketOf sys
           else "ERROR: S3 connection failed: " ++ s)]) := by
  unfold test_s3_connection
  simp [hc, he]
  split_ifs with h1 h2 <;> simp_all [clientAct, bucketOf]

theorem test_ctor_generic_err (sys : S3Sys) (e : S3Exn)
    (hc : credsOk (resolveConfig sys) = true)
    (he : sys.clientCtor = Except.error e)
    (hne : isClientErr e = false) :
    test_s3_connection sys =
      (Except.ok false,
       [clientAct sys, S3Act.print ("ERROR: Failed to connect to S3: " ++ exnStr e)]) := by
  unfold test_s3_connection
  cases e with
  | fileNotFound => simp [hc, he, clientAct]
  | noCredentials => simp [hc, he, clientAct]
  | clientError resp s => simp [isClientErr] at hne
  | other m => simp [hc, he, clientAct]

theorem test_ok (sys : S3Sys)
    (hc : credsOk (resolveConfig sys) = true)
    (hct : sys.clientCtor = Except.ok ())
    (hh : sys.headOutcome = Except.ok ()) :
    test_s3_connection sys =
      (Except.ok true,
       [clientAct sys, S3Act.headBucket (bucketOf sys),
        S3Act.print ("S3 connection successful: bucket " ++ bucketOf sys
          ++ " is accessible")]) := by
  unfold test_s3_connection
  simp [hc, hct, hh, clientAct, bucketOf]

theorem test_head_client_err (sys : S3Sys) (resp : S3ErrResp) (s : String)
    (hc : credsOk (resolveConfig sys) = true)
    (hct : sys.clientCtor = Except.ok ())
    (hh : sys.headOutcome = Except.error (S3Exn.clientError resp s)) :
    test_s3_connection sys =
      (Except.ok false,
       [clientAct sys, S3Act.headBucket (bucketOf sys),
        S3Act.print
          (if errorCode resp = "404" then "ERROR: Bucket " ++ bucketOf sys ++ " not found"
           else if errorCode resp = "403" then "ERROR: Access denied to bucket " ++ bucketOf sys
           else "ERROR: S3 connection failed: " ++ s)]) := by
  unfold test_s3_connection
  simp [hc, hct, hh]
  split_ifs with h1 h2 <;> simp_all [clientAct, bucketOf]

theorem test_head_generic_err (sys : S3Sys) (e : S3Exn)
    (hc : credsOk (resolveConfig sys) = true)
    (hct : sys.clientCtor = Except.ok ())
    (hh : sys.headOutcome = Except.error e)
    (hne : isClientErr e = false) :
    test_s3_connection sys =
      (Except.ok false,
       [clientAct sys, S3Act.headBucket (bucketOf sys),
        S3Act.print ("ERROR: Failed to connect to S3: " ++ exnStr e)]) := by
  unfold test_s3_connection
  cases e with
  | fileNotFound => simp [hc, hct, hh, clientAct, bucketOf]
  | noCredentials => simp [hc, hct, hh, clientAct, bucketOf]
  | clientError resp s => simp [isClientErr] at hne
  | other m => simp [hc, hct, hh, clientAct, bucketOf]

theorem partAt_no_sep (sep : Char) (l : List Char) (h : sep ∉ l) :
    partAt sep l = (l, none) := by
  induction l with
  | nil => rfl
  | cons c cs ih =>
    have hc : ¬ c = sep := by
      intro hh
      exact h (hh ▸ List.mem_cons_self c cs)
    simp [partAt, hc, ih (fun hm => h (List.mem_cons_of_mem c hm))]

theorem pyPartition_no_sep (s : String) (h : '=' ∉ s.data) :
    pyPartition s = (s, "") := by
  cases s with
  | mk d =>
    unfold pyPartition
    rw [partAt_no_sep '=' d h]
    rfl

theorem dropWhile_clean_of_rdrop (p : Char → Bool) (m : List Char)
    (hm : m.dropWhile p = m) :
    (m.rdropWhile p).dropWhile p = m.rdropWhile p := by
  obtain ⟨t, ht⟩ := List.rdropWhile_prefix p m
  cases hr : m.rdropWhile p with
  | nil => rfl
  | cons c cs =>
    rw [hr] at ht
    have hmc : c :: (cs ++ t) = m := by
      rw [← ht]
      rfl
    have hpc : p c = false := by
      cases hpcv : p c with
      | false => rfl
      | true =>
        exfalso
        rw [← hmc, List.dropWhile_cons_of_pos hpcv] at hm
        have hlen :=
          (show List.Sublist ((cs ++ t).dropWhile p) (cs ++ t) from
            List.dropWhile_sublist p).length_le
        rw [hm] at hlen
        simp only [List.length_cons] at hlen
        omega
    rw [List.dropWhile_cons_of_neg (by simp [hpc])]

theorem stripChars_idem (l : List Char) : stripChars (stripChars l) = stripChars l := by
  unfold stripChars
  rw [dropWhile_clean_of_rdrop isSpace (l.dropWhile isSpace)
      (List.dropWhile_idempotent isSpace l),
    List.rdropWhile_idempotent]

theorem pyStrip_idem (s : String) : pyStrip (pyStrip s) = pyStrip s := by
  unfold pyStrip
  rw [show (String.mk (stripChars s.data)).data = stripChars s.data from rfl, stripChars_idem]

theorem processLine_skip (d : List (String × String)) (raw : String)
    (h : pyStrip raw = "" ∨ (pyStrip raw).data.head? = some '#') :
    processLine d raw = d := by
  show (if (pyStrip raw).data ≠ [] ∧ (pyStrip raw).data.head? ≠ some '#' then
      dictInsert d (pyStrip (pyPartition (pyStrip raw)).1) (pyStrip (pyPartition (pyStrip raw)).2)
    else d) = d
  rw [if_neg]
  intro hcond
  rcases h with h | h
  · exact hcond.1 ((str_eq_empty_iff (pyStrip raw)).mp h)
  · exact hcond.2 h

theorem processLine_keep (d : List (String × String)) (raw : String)
    (h1 : pyStrip raw ≠ "") (h2 : (pyStrip raw).data.head? ≠ some '#') :
    processLine d raw =
      dictInsert d (pyStrip (pyPartition (pyStrip raw)).1)
        (pyStrip (pyPartition (pyStrip raw)).2) := by
  show (if (pyStrip raw).data ≠ [] ∧ (pyStrip raw).data.head? ≠ some '#' then
      dictInsert d (pyStrip (pyPartition (pyStrip raw)).1) (pyStrip (pyPartition (pyStrip raw)).2)
    else d) = _
  rw [if_pos ⟨fun hd => h1 ((str_eq_empty_iff _).mpr hd), h2⟩]

/-- Claim C1 as stated is false on the code: with `S3_REGION` absent from the
config file but set to `us-east-1` in the process environment (and the three
required keys in the file), both operations resolve the region to the
hardcoded default `ru-central1`, not to the environment value — line 37
reads the region from the file mapping with a hardcoded default and never
consults the environment. -/
theorem C1_counterexample :
    dictGet (load_env_file sysRegionEnv.envFile) "S3_REGION" = none ∧
    dictGet sysRegionEnv.osEnv "S3_REGION" = some "us-east-1" ∧
    (resolveConfig sysRegionEnv).region = "ru-central1" ∧
    (upload_to_s3 sysRegionEnv "f" "").2.head? =
      some (S3Act.createClient "a" "b" none "ru-central1") ∧
    (test_s3_connection sysRegionEnv).2.head? =
      some (S3Act.createClient "a" "b" none "ru-central1") ∧
    "ru-central1" ≠ "us-east-1" := by
  refine ⟨?_, ?_, ?_, ?_, ?_, ?_⟩ <;> decide

/-- Claim C1, amended: when a key is absent from the config file, the
operations resolve `S3_ACCESS_KEY_ID`, `S3_SECRET_ACCESS_KEY`,
`S3_BUCKET_NAME` and `S3_ENDPOINT_URL` from the process environment variable
of the same name, but `S3_REGION` never falls back to the environment: absent
from the file it resolves to the hardcoded default `ru-central1`, whatever
the environment holds. -/
theorem C1_amended (sys : S3Sys)
    (h1 : dictGet (load_env_file sys.envFile) "S3_ACCESS_KEY_ID" = none)
    (h2 : dictGet (load_env_file sys.envFile) "S3_SECRET_ACCESS_KEY" = none)
    (h3 : dictGet (load_env_file sys.envFile) "S3_BUCKET_NAME" = none)
    (h4 : dictGet (load_env_file sys.envFile) "S3_ENDPOINT_URL" = none)
    (h5 : dictGet (load_env_file sys.envFile) "S3_REGION" = none) :
    (resolveConfig sys).access_key = dictGet sys.osEnv "S3_ACCESS_KEY_ID" ∧
    (resolveConfig sys).secret_key = dictGet sys.osEnv "S3_SECRET_ACCESS_KEY" ∧
    (resolveConfig sys).bucket_name = dictGet sys.osEnv "S3_BUCKET_NAME" ∧
    (resolveConfig sys).endpoint_url = dictGet sys.osEnv "S3_ENDPOINT_URL" ∧
    (resolveConfig sys).region = "ru-central1" := by
  simp [resolveConfig, h1, h2, h3, h4, h5, pyOr]

/-- Concrete instance of `C1_amended`: no config file, all five keys in the
process environment; the four env-fallback keys resolve from the environment
and the region stays `ru-central1`. -/
theorem C1_amended_witness :
    ((resolveConfig sysEnvOnly).access_key = dictGet sysEnvOnly.osEnv "S3_ACCESS_KEY_ID" ∧
     (resolveConfig sysEnvOnly).secret_key = dictGet sysEnvOnly.osEnv "S3_SECRET_ACCESS_KEY" ∧
     (resolveConfig sysEnvOnly).bucket_name = dictGet sysEnvOnly.osEnv "S3_BUCKET_NAME" ∧
     (resolveConfig sysEnvOnly).endpoint_url = dictGet sysEnvOnly.osEnv "S3_ENDPOINT_URL" ∧
     (resolveConfig sysEnvOnly).region = "ru-central1") ∧
    (resolveConfig sysEnvOnly).access_key = some "A" :=
  ⟨C1_amended sysEnvOnly (by decide) (by decide) (by decide) (by decide) (by decide),
   by decide⟩

/-- Claim C2 as stated is false on the code: when the upload call raises an
exception that is none of `FileNotFoundError`, `NoCredentialsError`,
`ClientError` (as the boto3 upload helper can raise, e.g.
`S3UploadFailedError`), no
`except` clause of the upload `try` block matches and the exception
propagates out of `upload_to_s3`. -/
theorem C2_counterexample :
    (upload_to_s3 sysOtherExn "f" "").1 = Except.error (S3Exn.other "boom") := by
  decide

/-- Claim C2, amended: provided the upload call raises nothing outside the
three handled exception types, `upload_to_s3` always returns a boolean (no
exception propagates), it returns `True` exactly when the guard, the client
construction and the upload all succeed, and its last action is always a
printed message. An exception of any other type raised by the upload call
propagates to the caller (see the counterexample). -/
theorem C2_amended (sys : S3Sys) (fp p : String)
    (h : isOtherErr sys.uploadOutcome = false) :
    (∃ b, (upload_to_s3 sys fp p).1 = Except.ok b) ∧
    ((upload_to_s3 sys fp p).1 = Except.ok true ↔
      credsOk (resolveConfig sys) = true ∧ sys.clientCtor = Except.ok () ∧
        sys.uploadOutcome = Except.ok ()) ∧
    (∃ m, ((upload_to_s3 sys fp p).2).getLast? = some (S3Act.print m)) := by
  cases hc : credsOk (resolveConfig sys) with
  | false =>
    rw [upload_no_creds sys fp p hc]
    refine ⟨⟨false, rfl⟩, ?_, ⟨_, rfl⟩⟩
    simp [hc]
  | true =>
    cases hct : sys.clientCtor with
    | error e =>
      rw [upload_ctor_err sys fp p e hc hct]
      refine ⟨⟨false, rfl⟩, ?_, ⟨_, rfl⟩⟩
      simp [hct]
    | ok u =>
      cases u
      cases hup : sys.uploadOutcome with
      | ok u2 =>
        cases u2
        rw [upload_ok sys fp p hc hct hup]
        refine ⟨⟨true, rfl⟩, ?_, ⟨_, rfl⟩⟩
        simp [hc, hct, hup]
      | error e =>
        cases e with
        | fileNotFound =>
          rw [upload_fnf sys fp p hc hct hup]
          refine ⟨⟨false, rfl⟩, ?_, ⟨_, rfl⟩⟩
          simp [hup]
        | noCredentials =>
          rw [upload_nocred_exn sys fp p hc hct hup]
          refine ⟨⟨false, rfl⟩, ?_, ⟨_, rfl⟩⟩
          simp [hup]
        | clientError resp s =>
          rw [upload_client_err sys fp p resp s hc hct hup]
          refine ⟨⟨false, rfl⟩, ?_, ⟨_, rfl⟩⟩
          simp [hup]
        | other m =>
          rw [hup] at h
          simp [isOtherErr] at h

/-- Concrete instance of `C2_amended` on a fully succeeding system. -/
theorem C2_amended_witness :
    (∃ b, (upload_to_s3 sysFileCreds "f" "").1 = Except.ok b) ∧
    ((upload_to_s3 sysFileCreds "f" "").1 = Except.ok true ↔
      credsOk (resolveConfig sysFileCreds) = true ∧
        sysFileCreds.clientCtor = Except.ok () ∧
        sysFileCreds.uploadOutcome = Except.ok ()) ∧
    (∃ m, ((upload_to_s3 sysFileCreds "f" "").2).getLast? = some (S3Act.print m)) :=
  C2_amended sysFileCreds "f" "" (by decide)

/-- Claim C3: when any of the three required keys (access key id, secret
access key, bucket name) resolves to a missing or empty value from both the
config file and the environment, both operations return `False` with a single
printed error as their whole trace — no client construction and no remote
call. -/
theorem C3_required_keys (sys : S3Sys) (fp p : String)
    (h : truthy (resolveConfig sys).access_key = false ∨
         truthy (resolveConfig sys).secret_key = false ∨
         truthy (resolveConfig sys).bucket_name = false) :
    upload_to_s3 sys fp p =
      (Except.ok false, [S3Act.print "ERROR: S3 credentials not configured in .env"]) ∧
    test_s3_connection sys =
      (Except.ok false, [S3Act.print "ERROR: S3 credentials not configured"]) := by
  have hc : credsOk (resolveConfig sys) = false := by
    unfold credsOk
    rcases h with h | h | h <;> simp [h]
  exact ⟨upload_no_creds sys fp p hc, test_no_creds sys hc⟩

/-- Concrete instance of `C3_required_keys`: no config file, empty process
environment. -/
theorem C3_witness :
    truthy (resolveConfig sysNoCreds).access_key = false ∧
    upload_to_s3 sysNoCreds "backup.tar.gz" "" =
      (Except.ok false, [S3Act.print "ERROR: S3 credentials not configured in .env"]) ∧
    test_s3_connection sysNoCreds =
      (Except.ok false, [S3Act.print "ERROR: S3 credentials not configured"]) :=
  ⟨by decide,
   (C3_required_keys sysNoCreds "backup.tar.gz" "" (Or.inl (by decide))).1,
   (C3_required_keys sysNoCreds "backup.tar.gz" "" (Or.inl (by decide))).2⟩

theorem pyStrip_empty : pyStrip "" = "" := by decide

theorem test_no_upload (sys : S3Sys) (f b k c : String) :
    S3Act.uploadFile f b k c ∉ (test_s3_connection sys).2 := by
  cases hc : credsOk (resolveConfig sys) with
  | false =>
    rw [test_no_creds sys hc]
    simp [clientAct, bucketOf]
  | true =>
    cases hct : sys.clientCtor with
    | error e =>
      cases e with
      | clientError resp s =>
        rw [test_ctor_client_err sys resp s hc hct]
        simp [clientAct, bucketOf]
      | fileNotFound =>
        rw [test_ctor_generic_err sys _ hc hct (by simp [isClientErr])]
        simp [clientAct, bucketOf]
      | noCredentials =>
        rw [test_ctor_generic_err sys _ hc hct (by simp [isClientErr])]
        simp [clientAct, bucketOf]
      | other m =>
        rw [test_ctor_generic_err sys _ hc hct (by simp [isClientErr])]
        simp [clientAct, bucketOf]
    | ok u =>
      cases u
      cases hh : sys.headOutcome with
      | ok u2 =>
        cases u2
        rw [test_ok sys hc hct hh]
        simp [clientAct, bucketOf]
      | error e =>
        cases e with
        | clientError resp s =>
          rw [test_head_client_err sys resp s hc hct hh]
          simp [clientAct, bucketOf]
        | fileNotFound =>
          rw [test_head_generic_err sys _ hc hct hh (by simp [isClientErr])]
          simp [clientAct, bucketOf]
        | noCredentials =>
          rw [test_head_generic_err sys _ hc hct hh (by simp [isClientErr])]
          simp [clientAct, bucketOf]
        | other m =>
          rw [test_head_generic_err sys _ hc hct hh (by simp [isClientErr])]
          simp [clientAct, bucketOf]

/-- Claim C4: when `head_bucket` raises a `ClientError`, `test_s3_connection`
returns `False` and prints the bucket-not-found message for code `404`, the
access-denied message for code `403`, and otherwise the generic
connection-failure message carrying the error detail. -/
theorem C4_head_bucket_codes (sys : S3Sys) (resp : S3ErrResp) (s : String)
    (hc : credsOk (resolveConfig sys) = true)
    (hct : sys.clientCtor = Except.ok ())
    (hh : sys.headOutcome = Except.error (S3Exn.clientError resp s)) :
    (test_s3_connection sys).1 = Except.ok false ∧
    (test_s3_connection sys).2 =
      [clientAct sys, S3Act.headBucket (bucketOf sys),
       S3Act.print
         (if errorCode resp = "404" then "ERROR: Bucket " ++ bucketOf sys ++ " not found"
          else if errorCode resp = "403" then "ERROR: Access denied to bucket " ++ bucketOf sys
          else "ERROR: S3 connection failed: " ++ s)] := by
  rw [test_head_client_err sys resp s hc hct hh]
  exact ⟨rfl, rfl⟩

/-- Concrete instance of `C4_head_bucket_codes` with a 404-coded error:
the failure is reported as bucket-not-found. -/
theorem C4_witness :
    ((test_s3_connection sysHead404).1 = Except.ok false ∧
     (test_s3_connection sysHead404).2 =
       [clientAct sysHead404, S3Act.headBucket (bucketOf sysHead404),
        S3Act.print
          (if errorCode ⟨some (some "404")⟩ = "404" then
             "ERROR: Bucket " ++ bucketOf sysHead404 ++ " not found"
           else if errorCode ⟨some (some "404")⟩ = "403" then
             "ERROR: Access denied to bucket " ++ bucketOf sysHead404
           else "ERROR: S3 connection failed: " ++ "An error occurred (404)")]) ∧
    (test_s3_connection sysHead404).2.getLast? =
      some (S3Act.print "ERROR: Bucket c not found") :=
  ⟨C4_head_bucket_codes sysHead404 ⟨some (some "404")⟩ "An error occurred (404)"
     (by decide) rfl rfl,
   by decide⟩

/-- Claim C5: a successful upload sends the object to the destination key
`prefix ++ basename(file_path)`. -/
theorem C5_destination_key (sys : S3Sys) (fp p : String)
    (hc : credsOk (resolveConfig sys) = true)
    (hct : sys.clientCtor = Except.ok ())
    (hup : sys.uploadOutcome = Except.ok ()) :
    (upload_to_s3 sys fp p).1 = Except.ok true ∧
    S3Act.uploadFile fp (bucketOf sys) (p ++ pathName fp) "STANDARD" ∈
      (upload_to_s3 sys fp p).2 := by
  rw [upload_ok sys fp p hc hct hup]
  exact ⟨rfl, by simp⟩

/-- Concrete instance of `C5_destination_key`: the spec example, file
`/tmp/backup.tar.gz` with prefix `daily/` yields key `daily/backup.tar.gz`. -/
theorem C5_witness :
    ("daily/" ++ pathName "/tmp/backup.tar.gz" = "daily/backup.tar.gz") ∧
    (upload_to_s3 sysFileCreds "/tmp/backup.tar.gz" "daily/").1 = Except.ok true ∧
    S3Act.uploadFile "/tmp/backup.tar.gz" (bucketOf sysFileCreds)
        ("daily/" ++ pathName "/tmp/backup.tar.gz") "STANDARD" ∈
      (upload_to_s3 sysFileCreds "/tmp/backup.tar.gz" "daily/").2 :=
  ⟨by decide,
   (C5_destination_key sysFileCreds "/tmp/backup.tar.gz" "daily/" (by decide) rfl rfl).1,
   (C5_destination_key sysFileCreds "/tmp/backup.tar.gz" "daily/" (by decide) rfl rfl).2⟩

/-- Claim C6: the loader splits each kept line at the first `=`, stripping
whitespace from key and value, and a line that strips to empty or to one
beginning with `#` contributes no entry to the mapping. -/
theorem C6_line_processing (pre post : List String) (line : String) :
    ((pyStrip line = "" ∨ (pyStrip line).data.head? = some '#') →
      load_env_file (some (pre ++ line :: post)) = load_env_file (some (pre ++ post))) ∧
    (pyStrip line ≠ "" → (pyStrip line).data.head? ≠ some '#' →
      load_env_file (some (pre ++ [line])) =
        dictInsert (load_env_file (some pre))
          (pyStrip (pyPartition (pyStrip line)).1)
          (pyStrip (pyPartition (pyStrip line)).2)) := by
  constructor
  · intro h
    simp only [load_env_file, List.foldl_append, List.foldl_cons]
    rw [processLine_skip _ _ h]
  · intro h1 h2
    simp only [load_env_file, List.foldl_append, List.foldl_cons, List.foldl_nil]
    rw [processLine_keep _ _ h1 h2]

/-- Concrete instance of `C6_line_processing`: a comment line contributes
nothing, and ` K = V ` inserts the stripped pair `(K, V)`. -/
theorem C6_witness :
    (load_env_file (some (["A=1"] ++ "# comment" :: ["B=2"])) =
      load_env_file (some (["A=1"] ++ ["B=2"]))) ∧
    (load_env_file (some (["A=1"] ++ [" K = V "])) =
      dictInsert (load_env_file (some ["A=1"]))
        (pyStrip (pyPartition (pyStrip " K = V ")).1)
        (pyStrip (pyPartition (pyStrip " K = V ")).2)) ∧
    pyStrip (pyPartition (pyStrip " K = V ")).1 = "K" ∧
    pyStrip (pyPartition (pyStrip " K = V ")).2 = "V" :=
  ⟨(C6_line_processing ["A=1"] ["B=2"] "# comment").1 (Or.inr (by decide)),
   (C6_line_processing ["A=1"] [] " K = V ").2 (by decide) (by decide),
   by decide, by decide⟩

/-- Claim C7 as stated is false on the code: with no config file,
`load_env_file` does return the empty mapping, but the callers do not resolve
every key from the process environment — `S3_REGION`, set to `R` in the
environment, still resolves to the hardcoded `ru-central1`. -/
theorem C7_counterexample :
    load_env_file none = [] ∧
    sysEnvOnly.envFile = none ∧
    dictGet sysEnvOnly.osEnv "S3_REGION" = some "R" ∧
    (resolveConfig sysEnvOnly).region = "ru-central1" ∧
    "ru-central1" ≠ "R" := by
  refine ⟨rfl, rfl, ?_, ?_, ?_⟩ <;> decide

/-- Claim C7, amended: when the config file does not exist, `load_env_file`
returns the empty mapping rather than an error, and the callers then resolve
the four keys other than `S3_REGION` from the process environment;
`S3_REGION` resolves to the hardcoded default `ru-central1`. -/
theorem C7_amended (sys : S3Sys) (h : sys.envFile = none) :
    load_env_file sys.envFile = [] ∧
    (resolveConfig sys).access_key = dictGet sys.osEnv "S3_ACCESS_KEY_ID" ∧
    (resolveConfig sys).secret_key = dictGet sys.osEnv "S3_SECRET_ACCESS_KEY" ∧
    (resolveConfig sys).bucket_name = dictGet sys.osEnv "S3_BUCKET_NAME" ∧
    (resolveConfig sys).endpoint_url = dictGet sys.osEnv "S3_ENDPOINT_URL" ∧
    (resolveConfig sys).region = "ru-central1" := by
  simp [resolveConfig, h, load_env_file, dictGet, pyOr]

/-- Concrete instance of `C7_amended` on the no-file system. -/
theorem C7_amended_witness :
    (load_env_file sysEnvOnly.envFile = [] ∧
     (resolveConfig sysEnvOnly).access_key = dictGet sysEnvOnly.osEnv "S3_ACCESS_KEY_ID" ∧
     (resolveConfig sysEnvOnly).secret_key = dictGet sysEnvOnly.osEnv "S3_SECRET_ACCESS_KEY" ∧
     (resolveConfig sysEnvOnly).bucket_name = dictGet sysEnvOnly.osEnv "S3_BUCKET_NAME" ∧
     (resolveConfig sysEnvOnly).endpoint_url = dictGet sysEnvOnly.osEnv "S3_ENDPOINT_URL" ∧
     (resolveConfig sysEnvOnly).region = "ru-central1") ∧
    (resolveConfig sysEnvOnly).bucket_name = some "C" :=
  ⟨C7_amended sysEnvOnly rfl, by decide⟩

/-- Claim C8: for every CLI form, the exit code is 0 exactly when the
dispatched operation returns success; with no arguments the program prints
the two usage lines and exits 1 without running either operation. -/
theorem C8_exit_codes (sys : S3Sys) :
    (mainRun sys [] =
      (1, [S3Act.print "Usage: s3_upload.py <file_path> [s3_prefix]",
           S3Act.print "       s3_upload.py --test"])) ∧
    (∀ rest : List String,
      (mainRun sys ("--test" :: rest)).1 =
        if (test_s3_connection sys).1 = Except.ok true then 0 else 1) ∧
    (∀ fp rest, fp ≠ "--test" →
      (mainRun sys (fp :: rest)).1 =
        if (upload_to_s3 sys fp (rest.headD "")).1 = Except.ok true then 0 else 1) := by
  refine ⟨rfl, ?_, ?_⟩
  · intro rest
    cases h : (test_s3_connection sys).1 with
    | error e => simp [mainRun, h]
    | ok b => cases b <;> simp [mainRun, h]
  · intro fp rest hne
    have key : ∀ (r : Except S3Exn Bool),
        (match r with | Except.ok true => (0 : Nat) | _ => 1) =
          if r = Except.ok true then 0 else 1 := by
      intro r
      rcases r with e | b
      · simp
      · cases b <;> simp
    calc (mainRun sys (fp :: rest)).1
        = (match (upload_to_s3 sys fp (rest.headD "")).1 with
            | Except.ok true => 0
            | _ => 1) := by simp [mainRun, hne]
      _ = if (upload_to_s3 sys fp (rest.headD "")).1 = Except.ok true then 0 else 1 :=
          key ((upload_to_s3 sys fp (rest.headD "")).1)

/-- Concrete instance of `C8_exit_codes` covering all four invocation forms. -/
theorem C8_witness :
    (mainRun sysFileCreds [] =
      (1, [S3Act.print "Usage: s3_upload.py <file_path> [s3_prefix]",
           S3Act.print "       s3_upload.py --test"])) ∧
    ((mainRun sysFileCreds ["--test"]).1 =
      if (test_s3_connection sysFileCreds).1 = Except.ok true then 0 else 1) ∧
    ((mainRun sysFileCreds ["f", "daily/"]).1 =
      if (upload_to_s3 sysFileCreds "f" (["daily/"].headD "")).1 = Except.ok true
      then 0 else 1) :=
  ⟨(C8_exit_codes sysFileCreds).1,
   (C8_exit_codes sysFileCreds).2.1 [],
   (C8_exit_codes sysFileCreds).2.2 "f" ["daily/"] (by decide)⟩

/-- Claim C9: a kept line with no `=` is not skipped — the whole stripped
line becomes a key mapped to the empty string. -/
theorem C9_no_equals_line (pre : List String) (line : String)
    (h1 : pyStrip line ≠ "") (h2 : (pyStrip line).data.head? ≠ some '#')
    (h3 : '=' ∉ (pyStrip line).data) :
    load_env_file (some (pre ++ [line])) =
      dictInsert (load_env_file (some pre)) (pyStrip line) "" := by
  simp only [load_env_file, List.foldl_append, List.foldl_cons, List.foldl_nil]
  rw [processLine_keep _ _ h1 h2, pyPartition_no_sep _ h3]
  simp [pyStrip_idem, pyStrip_empty]

/-- Concrete instance of `C9_no_equals_line`: the malformed line ` NOEQ `
contributes the entry `("NOEQ", "")`. -/
theorem C9_witness :
    (load_env_file (some (["A=1"] ++ [" NOEQ "])) =
      dictInsert (load_env_file (some ["A=1"])) (pyStrip " NOEQ ") "") ∧
    pyStrip " NOEQ " = "NOEQ" ∧
    load_env_file (some ["A=1", " NOEQ "]) = [("A", "1"), ("NOEQ", "")] :=
  ⟨C9_no_equals_line ["A=1"] " NOEQ " (by decide) (by decide) (by decide),
   by decide, by decide⟩

/-- Claim C10: whenever the first CLI argument is exactly `--test`, the
program runs the connectivity test (exit code from its result, trace equal to
its trace) and performs no upload call, so a local file named `--test` can
never be uploaded through the CLI. -/
theorem C10_test_flag (sys : S3Sys) (rest : List String) :
    mainRun sys ("--test" :: rest) =
      ((if (test_s3_connection sys).1 = Except.ok true then 0 else 1),
       (test_s3_connection sys).2) ∧
    (∀ f b k c, S3Act.uploadFile f b k c ∉ (mainRun sys ("--test" :: rest)).2) := by
  constructor
  · cases h : (test_s3_connection sys).1 with
    | error e => simp [mainRun, h]
    | ok b => cases b <;> simp [mainRun, h]
  · intro f b k c
    have h2 : (mainRun sys ("--test" :: rest)).2 = (test_s3_connection sys).2 := by
      simp [mainRun]
    rw [h2]
    exact test_no_upload sys f b k c
